import Mathlib

/-!
Verification of the client-side telemetry aggregation and conversational
state engine of the predictive-maintenance dashboard.

The development shallowly embeds the two React components that hold the
core logic:

* `Dashboard` (the telemetry poller, series merger, anomaly classifier,
  staleness evaluator) — function `fetchCharts` and memo `isStale`;
* `Chatbot` (the conversation engine) — functions `sendMessage` and
  `handleApprove`.

JavaScript numbers are modelled as rationals, JavaScript
null/undefined slots as `Option`, and each asynchronous handler as a
pure function from the pre-call state and the network outcome (an
`Option` of the parsed response, `none` meaning the request rejected)
to the post-call state.  Array indexing `a[i]` past the end of an
array, which yields `undefined` in JavaScript, is modelled by
`List.get?`.
-/

namespace PredMaint

/-! ## Generic helpers -/

/-- Indexed map, mirroring the `(value, index)` callback shape of
`Array.prototype.map`, with an explicit starting index. -/
def mapIdxFrom (f : Nat → α → β) : Nat → List α → List β
  | _, [] => []
  | i, a :: as => f i a :: mapIdxFrom f (i + 1) as

/-- Indexed map starting at index 0, as `Array.prototype.map` does. -/
def jsMapIdx (f : Nat → α → β) (l : List α) : List β :=
  mapIdxFrom f 0 l

theorem mapIdxFrom_length (f : Nat → α → β) (l : List α) :
    ∀ i, (mapIdxFrom f i l).length = l.length := by
  induction l with
  | nil => intro i; rfl
  | cons a as ih => intro i; simp [mapIdxFrom, ih]

theorem jsMapIdx_length (f : Nat → α → β) (l : List α) :
    (jsMapIdx f l).length = l.length :=
  mapIdxFrom_length f l 0

theorem mapIdxFrom_get? (f : Nat → α → β) (l : List α) :
    ∀ i n, (mapIdxFrom f i l).get? n = (l.get? n).map (f (i + n)) := by
  induction l with
  | nil => intro i n; simp [mapIdxFrom]
  | cons a as ih =>
      intro i n
      cases n with
      | zero => simp [mapIdxFrom]
      | succ m =>
          simp only [mapIdxFrom, List.get?]
          rw [ih (i + 1) m]
          have : i + 1 + m = i + (m + 1) := by omega
          rw [this]

theorem jsMapIdx_get? (f : Nat → α → β) (l : List α) (n : Nat) :
    (jsMapIdx f l).get? n = (l.get? n).map (f n) := by
  have h := mapIdxFrom_get? f l 0 n
  simpa [jsMapIdx] using h

/-- The `String.prototype.trim` of JavaScript: whitespace stripped
from both ends, written as structural recursion over the character
list of the string. -/
def jsTrim (s : String) : String :=
  String.mk
    (((s.data.dropWhile Char.isWhitespace).reverse.dropWhile
        Char.isWhitespace).reverse)

/-! ## Data model of the telemetry feeds -/

/-- Response of GET forecast for one metric.  The two timestamp arrays
are `Option` because a malformed response may omit them, in which case
the mapping code in `fetchCharts` throws.  The value arrays are plain
lists; indexing past their end yields undefined, which the code stores
as-is. -/
structure ForecastResp where
  history_x : Option (List String)
  history_y : List ℚ
  history_flags : Option (List Bool)
  forecast_x : Option (List String)
  forecast_y : List ℚ
deriving DecidableEq, Repr

/-- Response of GET anomalies for one metric. -/
structure AnomalyResp where
  threshold : ℚ
  timestamps : Option (List String)
  raw_values : Option (List ℚ)
  scores : Option (List ℚ)
deriving DecidableEq, Repr

/-- One entry of the importance feed. -/
structure ImportanceItem where
  feature : String
  importance : ℚ
deriving DecidableEq, Repr

/-- Response of GET importance, an object mapping metric names to
ranked importance entries, modelled as an association list. -/
abbrev ImportanceResp := List (String × List ImportanceItem)

/-- One render point of the merged forecast series, as built in
`fetchCharts`.  The three value channels are nullable: `none` stands
for the null (or undefined) the code stores there. -/
structure ChartPoint where
  time : String
  history : Option ℚ
  history_error : Option ℚ
  forecast : Option ℚ
deriving DecidableEq, Repr

/-- One anomaly scatter point, as built in `fetchCharts`. -/
structure AnomalyPoint where
  time : ℚ
  score : ℚ
  rawValue : ℚ
  status : String
  dateStr : Option String
deriving DecidableEq, Repr

/-- The chart-related state of the `Dashboard` component: the selected
metric plus the four snapshots written by `fetchCharts`. -/
structure DashState where
  selectedTarget : String
  forecastData : List ChartPoint
  anomalyData : List AnomalyPoint
  importanceData : List ImportanceItem
  threshold : ℚ
deriving DecidableEq, Repr

/-! ## Series merger, from `fetchCharts` in the Dashboard component -/

/-- The `time.substring(11, 16)` applied to every timestamp before it
is stored in a chart point. -/
def jsSubstring (s : String) : String :=
  (s.drop 11).take 5

/-- The per-index error flag: `history_flags ? history_flags[i] : false`,
where an out-of-range lookup yields undefined, which the conditional
treats as false. -/
def histFlag (r : ForecastResp) (i : Nat) : Bool :=
  match r.history_flags with
  | some fl => (fl.get? i).getD false
  | none => false

/-- One history point of the merged series: observed channel carries
`history_y[i]`, the error overlay repeats it exactly when the flag is
set, and the forecast channel is null. -/
def historyPoint (r : ForecastResp) (i : Nat) (time : String) : ChartPoint :=
  let val := r.history_y.get? i
  { time := jsSubstring time
    history := val
    history_error := if histFlag r i then val else none
    forecast := none }

/-- One forecast point of the merged series: observed and error
channels are null, the forecast channel carries `forecast_y[i]`. -/
def forecastPoint (r : ForecastResp) (i : Nat) (time : String) : ChartPoint :=
  { time := jsSubstring time
    history := none
    history_error := none
    forecast := r.forecast_y.get? i }

/-- The merged render sequence `[...history, ...forecast]` built by
`fetchCharts`.  Returns `none` when either timestamp array is missing,
in which case the `.map` call throws and the tick aborts before
`setForecastData`. -/
def mergeForecast (r : ForecastResp) : Option (List ChartPoint) :=
  match r.history_x, r.forecast_x with
  | some hx, some fx =>
      some (jsMapIdx (historyPoint r) hx ++ jsMapIdx (forecastPoint r) fx)
  | _, _ => none

/-! ## Anomaly classifier, from `fetchCharts` -/

/-- One anomaly point.  `pd` models `new Date(s).getTime()` on an ISO
timestamp string.  A missing or empty timestamp entry is falsy, so the
code falls back to the index `i`; a missing raw value falls back to 0
via the or-with-zero; the classification compares the score against
the threshold of the same response. -/
def anomalyPoint (pd : String → ℚ) (r : AnomalyResp) (i : Nat) (score : ℚ) :
    AnomalyPoint :=
  let ts := r.timestamps.getD []
  let rv := r.raw_values.getD []
  { time :=
      match ts.get? i with
      | some t => if t = "" then (i : ℚ) else pd t
      | none => (i : ℚ)
    score := score
    rawValue := (rv.get? i).getD 0
    status := if score < r.threshold then "Anomaly" else "Normal"
    dateStr := ts.get? i }

/-- The anomaly scatter array built by `fetchCharts`; `none` when the
scores array is missing, in which case `.map` on undefined throws. -/
def anomalyPoints (pd : String → ℚ) (r : AnomalyResp) :
    Option (List AnomalyPoint) :=
  match r.scores with
  | none => none
  | some scs => some (jsMapIdx (anomalyPoint pd r) scs)

/-! ## Importance feed processing, from `fetchCharts` -/

/-- Property lookup `allImportance[selectedTarget]` on the importance
response object. -/
def importanceLookup (ir : ImportanceResp) (key : String) :
    Option (List ImportanceItem) :=
  (ir.find? (fun p => p.1 == key)).map Prod.snd

/-- The feature-name cosmetic rewrite replacing underscores by spaces
and uppercasing. -/
def sanitizeFeature (s : String) : String :=
  (s.map fun c => if c = '_' then ' ' else c).toUpper

/-- The slice-to-ten and rename step applied to the entries of the
selected metric. -/
def topFeatures (items : List ImportanceItem) : List ImportanceItem :=
  (items.take 10).map fun it =>
    { feature := sanitizeFeature it.feature, importance := it.importance }

/-! ## One polling tick of `fetchCharts`

The tick first awaits all three requests (`Promise.all`); a rejection
of any of them rejects the whole await and the catch block leaves the
state untouched.  The try body then runs sequentially: building the
history points (throws when `history_x` is missing), building the
forecast points (throws when `forecast_x` is missing),
`setForecastData`, building the anomaly points (throws when `scores`
is missing), `setAnomalyData` and `setThreshold`, and finally
`setImportanceData` guarded by the key being present.  A throw
anywhere lands in the catch block, keeping every update already
applied and skipping the rest. -/
def fetchChartsTick (pd : String → ℚ) (s : DashState)
    (fetched : Option (ForecastResp × AnomalyResp × ImportanceResp)) :
    DashState :=
  match fetched with
  | none => s
  | some (fr, ar, ir) =>
      match mergeForecast fr with
      | none => s
      | some fd =>
          let s1 := { s with forecastData := fd }
          match anomalyPoints pd ar with
          | none => s1
          | some ap =>
              let s2 := { s1 with anomalyData := ap, threshold := ar.threshold }
              match importanceLookup ir s.selectedTarget with
              | some items => { s2 with importanceData := topFeatures items }
              | none => s2

/-! ## Staleness evaluator, the `isStale` memo of the Dashboard -/

/-- The data timestamp as seen by `isStale`: missing summary or
missing field, a present but unparseable string (the Date becomes NaN
and every comparison on it is false), or a parsed epoch value in
milliseconds. -/
inductive TimestampField
  | absent
  | unparseable
  | parsed (ms : ℤ)
deriving DecidableEq, Repr

/-- The staleness evaluator: false when the timestamp is absent or
unparseable, otherwise `Math.floor((now - sensorTime)/60000) > 30`
with times in milliseconds.  `Int.fdiv` is floor division, matching
`Math.floor` of the real quotient. -/
def isStale (ts : TimestampField) (now : ℤ) : Bool :=
  match ts with
  | .absent => false
  | .unparseable => false
  | .parsed t => Int.fdiv (now - t) 60000 > 30

/-! ## Conversation engine, from the Chatbot component -/

/-- One transcript entry; assistant messages carry no image. -/
structure ChatMsg where
  role : String
  content : String
  image : Option String
deriving DecidableEq, Repr

/-- The state of the Chatbot component that `sendMessage` and
`handleApprove` read and write.  The absent-draft state is encoded as
the empty string, as in the component. -/
structure ChatState where
  messages : List ChatMsg
  input : String
  draft : String
  loading : Bool
  sessionId : String
  imageFile : Option String
  imageBase64 : Option String
deriving DecidableEq, Repr

/-- Parsed body of a successful POST chat response. -/
structure ChatResp where
  response : String
  draft : Option String
deriving DecidableEq, Repr

/-- The request payload `sendMessage` posts. -/
structure ChatRequest where
  message : String
  session_id : String
  image_base64 : Option String
deriving DecidableEq, Repr

/-- Parsed body of a successful approval response. -/
structure ApproveResp where
  work_order_id : String
deriving DecidableEq, Repr

/-- The sendMessage handler.  The guard returns immediately (issuing
no request and changing nothing) when the trimmed input is empty,
regardless of any staged image.  Otherwise the user message is
appended optimistically, the input and staged image are cleared, the
loading flag is set, and one request is posted whose message text is
the trimmed input or, were it empty, a default prompt.  On success the
assistant reply is appended and a truthy draft field replaces the
draft; on failure a synthetic error message is appended; the finally
block always clears the loading flag.  The result pairs the posted
request with the state after completion, or is `none` when the guard
fired. -/
def sendMessage (s : ChatState) (result : Option ChatResp) :
    Option (ChatRequest × ChatState) :=
  if jsTrim s.input = "" then none
  else
    let newMsg : ChatMsg := { role := "user", content := s.input, image := s.imageBase64 }
    let currentInput := s.input
    let currentImg := s.imageBase64
    let payload : ChatRequest :=
      { message := if jsTrim currentInput = "" then "Please analyze this image." else jsTrim currentInput
        session_id := s.sessionId
        image_base64 := currentImg }
    let s1 : ChatState :=
      { s with
        messages := s.messages ++ [newMsg]
        input := ""
        imageFile := none
        imageBase64 := none
        loading := true }
    let s2 : ChatState :=
      match result with
      | some resp =>
          let s2a := { s1 with messages := s1.messages ++ [{ role := "ai", content := resp.response, image := none }] }
          match resp.draft with
          | some d => if d = "" then s2a else { s2a with draft := d }
          | none => s2a
      | none =>
          { s1 with messages := s1.messages ++ [{ role := "ai", content := "⚠️ Error connecting to server.", image := none }] }
    some (payload, { s2 with loading := false })

/-- The handleApprove handler: sets the loading flag, posts the
session id; on success clears the draft and appends the confirmation
message carrying the returned work-order id; on failure only an alert
is raised and no state field is touched; the finally block always
clears the loading flag. -/
def handleApprove (s : ChatState) (result : Option ApproveResp) : ChatState :=
  let s1 := { s with loading := true }
  let s2 :=
    match result with
    | some resp =>
        { s1 with
          draft := ""
          messages := s1.messages ++
            [({ role := "ai"
                content := "✅ Success! Work Order " ++ resp.work_order_id ++ " has been saved to the database."
                image := none } : ChatMsg)] }
    | none => s1
  { s2 with loading := false }

/-! ## Helper lemmas on the conversation engine -/

theorem sendMessage_guard (s : ChatState) (r : Option ChatResp)
    (h : jsTrim s.input = "") : sendMessage s r = none := by
  simp [sendMessage, h]

theorem sendMessage_success_state (s : ChatState) (resp : ChatResp)
    (h : ¬ jsTrim s.input = "") :
    sendMessage s (some resp) =
      some ({ message := jsTrim s.input
              session_id := s.sessionId
              image_base64 := s.imageBase64 },
        { messages := s.messages ++
            [{ role := "user", content := s.input, image := s.imageBase64 },
             { role := "ai", content := resp.response, image := none }]
          input := ""
          draft := match resp.draft with
                   | some d => if d = "" then s.draft else d
                   | none => s.draft
          loading := false
          sessionId := s.sessionId
          imageFile := none
          imageBase64 := none }) := by
  simp only [sendMessage, if_neg h]
  cases hd : resp.draft with
  | none => simp
  | some d =>
      by_cases hde : d = ""
      · simp [hde]
      · simp [hde]

theorem sendMessage_failure_state (s : ChatState) (h : ¬ jsTrim s.input = "") :
    sendMessage s none =
      some ({ message := jsTrim s.input
              session_id := s.sessionId
              image_base64 := s.imageBase64 },
        { s with
          messages := s.messages ++
            [{ role := "user", content := s.input, image := s.imageBase64 },
             { role := "ai", content := "⚠️ Error connecting to server.", image := none }]
          input := ""
          loading := false
          imageFile := none
          imageBase64 := none }) := by
  simp only [sendMessage, if_neg h]
  simp

/-! ## Claim C4 -/

/-- C4: evaluation of the code at the failing input.  With text that is
empty after trimming and an image staged, sendMessage returns early:
no message is appended, no request is issued and no state changes.
The specified behaviour is to proceed and substitute the default
prompt; the guard makes that substitution dead code. -/
theorem sendMessage_image_only_noop :
    sendMessage
      { messages := []
        input := "   "
        draft := ""
        loading := false
        sessionId := "session-abc"
        imageFile := some "photo.jpg"
        imageBase64 := some "imgdata" }
      (some { response := "hi", draft := none }) = none := by
  rfl

/-! ## Claim C5 -/

/-- C5 counterexample: a timestamp 30.5 minutes old (1830000 ms) makes
the difference exceed 30 minutes, yet the evaluator returns false,
because the code floors the difference to whole minutes before the
strict comparison with 30. -/
theorem isStale_thirty_min_boundary :
    ((1830000 : ℤ) - 0 > 30 * 60000) ∧ isStale (.parsed 0) 1830000 = false :=
  ⟨by decide, by rfl⟩

/-- C5 amended: the evaluator returns true exactly when the difference
is at least 31 full minutes (floored minutes strictly greater than
30), and returns false for an absent or unparseable timestamp. -/
theorem isStale_amended (t now : ℤ) :
    (isStale (.parsed t) now = true ↔ now - t ≥ 31 * 60000) ∧
    isStale .absent now = false ∧ isStale .unparseable now = false := by
  refine ⟨?_, rfl, rfl⟩
  simp only [isStale, gt_iff_lt, decide_eq_true_eq]
  rw [Int.fdiv_eq_ediv _ (by norm_num)]
  omega

/-! ## Claim C6 -/

/-- C6: a failed approval leaves the draft, the transcript and the
session id exactly as they were, so a retry with the same session id
remains possible, and the loading flag is cleared on every completion,
success or failure. -/
theorem handleApprove_failure_preserves (s : ChatState) :
    (handleApprove s none).draft = s.draft ∧
    (handleApprove s none).messages = s.messages ∧
    (handleApprove s none).sessionId = s.sessionId ∧
    (∀ r, (handleApprove s r).loading = false) := by
  refine ⟨rfl, rfl, rfl, fun r => ?_⟩
  cases r <;> rfl

/-! ## Claim C3 -/

/-- C3: after two successive successful sendMessage completions whose
responses both carry nonempty draft content, the pending draft equals
exactly the draft of the second response; the first draft is wholly
replaced, with no merging. -/
theorem draft_replacement (s : ChatState) (r1 r2 : ChatResp) (d1 d2 t2 : String)
    (h1 : ¬ jsTrim s.input = "") (hr1 : r1.draft = some d1) (hd1 : d1 ≠ "")
    (hr2 : r2.draft = some d2) (hd2 : d2 ≠ "") (ht2 : ¬ jsTrim t2 = "")
    (p1 p2 : ChatRequest) (s1 s2 : ChatState)
    (e1 : sendMessage s (some r1) = some (p1, s1))
    (e2 : sendMessage { s1 with input := t2 } (some r2) = some (p2, s2)) :
    s1.draft = d1 ∧ s2.draft = d2 := by
  rw [sendMessage_success_state s r1 h1] at e1
  simp only [Option.some.injEq, Prod.mk.injEq] at e1
  obtain ⟨hp1, hs1⟩ := e1
  have hs1d : s1.draft = d1 := by
    rw [← hs1]
    simp [hr1, hd1]
  refine ⟨hs1d, ?_⟩
  have ht2a : ¬ jsTrim ({ s1 with input := t2 } : ChatState).input = "" := ht2
  rw [sendMessage_success_state _ r2 ht2a] at e2
  simp only [Option.some.injEq, Prod.mk.injEq] at e2
  obtain ⟨hp2, hs2⟩ := e2
  rw [← hs2]
  simp [hr2, hd2]

/-- C3 witness: a concrete two-round conversation in which the first
response proposes draft A and the second proposes draft B; after the
first round the pending draft is A, after the second it is exactly B. -/
theorem draft_replacement_witness :
    ({ messages := [{ role := "user", content := "hello", image := none },
                    { role := "ai", content := "resp1", image := none }]
       input := ""
       draft := "A"
       loading := false
       sessionId := "sid"
       imageFile := none
       imageBase64 := none } : ChatState).draft = "A" ∧
    ({ messages := [{ role := "user", content := "hello", image := none },
                    { role := "ai", content := "resp1", image := none },
                    { role := "user", content := "next", image := none },
                    { role := "ai", content := "resp2", image := none }]
       input := ""
       draft := "B"
       loading := false
       sessionId := "sid"
       imageFile := none
       imageBase64 := none } : ChatState).draft = "B" :=
  draft_replacement
    { messages := [], input := "hello", draft := "", loading := false,
      sessionId := "sid", imageFile := none, imageBase64 := none }
    { response := "resp1", draft := some "A" }
    { response := "resp2", draft := some "B" }
    "A" "B" "next" (by decide) rfl (by decide) rfl (by decide) (by decide)
    { message := "hello", session_id := "sid", image_base64 := none }
    { message := "next", session_id := "sid", image_base64 := none }
    { messages := [{ role := "user", content := "hello", image := none },
                   { role := "ai", content := "resp1", image := none }]
      input := ""
      draft := "A"
      loading := false
      sessionId := "sid"
      imageFile := none
      imageBase64 := none }
    { messages := [{ role := "user", content := "hello", image := none },
                   { role := "ai", content := "resp1", image := none },
                   { role := "user", content := "next", image := none },
                   { role := "ai", content := "resp2", image := none }]
      input := ""
      draft := "B"
      loading := false
      sessionId := "sid"
      imageFile := none
      imageBase64 := none }
    (by rfl) (by rfl)

/-! ## Claim C10 -/

/-- C10: a successful response replaces the pending draft only when
its draft field is a nonempty string; a response whose draft field is
absent or empty leaves the draft unchanged, a nonempty draft never
becomes the empty (absent) encoding through a response, and a failed
request also leaves the draft unchanged. -/
theorem draft_truthy_guard (s : ChatState) (r : ChatResp) (p : ChatRequest)
    (s1 : ChatState) (e : sendMessage s (some r) = some (p, s1)) :
    (s1.draft = match r.draft with
                | some d => if d = "" then s.draft else d
                | none => s.draft) ∧
    (s.draft ≠ "" → s1.draft ≠ "") ∧
    (∀ p2 s2, sendMessage s none = some (p2, s2) → s2.draft = s.draft) := by
  have hg : ¬ jsTrim s.input = "" := by
    intro hg
    rw [sendMessage_guard s _ hg] at e
    exact Option.noConfusion e
  rw [sendMessage_success_state s r hg] at e
  simp only [Option.some.injEq, Prod.mk.injEq] at e
  obtain ⟨hp, hs⟩ := e
  refine ⟨by rw [← hs], ?_, ?_⟩
  · intro hne
    rw [← hs]
    cases hd : r.draft with
    | none => exact hne
    | some d =>
        show (if d = "" then s.draft else d) ≠ ""
        by_cases hde : d = ""
        · rw [if_pos hde]; exact hne
        · rw [if_neg hde]; exact hde
  · intro p2 s2 e2
    rw [sendMessage_failure_state s hg] at e2
    simp only [Option.some.injEq, Prod.mk.injEq] at e2
    obtain ⟨hp2, hs2⟩ := e2
    rw [← hs2]

/-- C10 witness: a concrete successful round whose response has no
draft field; the previously pending draft survives unchanged. -/
theorem draft_truthy_guard_witness :
    ({ messages := [{ role := "user", content := "hi", image := none },
                    { role := "ai", content := "resp", image := none }]
       input := ""
       draft := "old"
       loading := false
       sessionId := "sid"
       imageFile := none
       imageBase64 := none } : ChatState).draft = "old" := by
  exact (draft_truthy_guard
    { messages := [], input := "hi", draft := "old", loading := false,
      sessionId := "sid", imageFile := none, imageBase64 := none }
    { response := "resp", draft := none }
    { message := "hi", session_id := "sid", image_base64 := none }
    { messages := [{ role := "user", content := "hi", image := none },
                   { role := "ai", content := "resp", image := none }]
      input := ""
      draft := "old"
      loading := false
      sessionId := "sid"
      imageFile := none
      imageBase64 := none }
    (by rfl)).1

/-! ## Helper lemmas on the polling tick -/

theorem fetchChartsTick_selectedTarget (pd : String → ℚ) (s : DashState)
    (r : Option (ForecastResp × AnomalyResp × ImportanceResp)) :
    (fetchChartsTick pd s r).selectedTarget = s.selectedTarget := by
  unfold fetchChartsTick
  repeat' split
  all_goals rfl

theorem fetchChartsTick_success (pd : String → ℚ) (m : DashState)
    (fr : ForecastResp) (ar : AnomalyResp) (ir : ImportanceResp)
    (fd : List ChartPoint) (ap : List AnomalyPoint) (items : List ImportanceItem)
    (hf : mergeForecast fr = some fd) (ha : anomalyPoints pd ar = some ap)
    (hi : importanceLookup ir m.selectedTarget = some items) :
    fetchChartsTick pd m (some (fr, ar, ir)) =
      { selectedTarget := m.selectedTarget
        forecastData := fd
        anomalyData := ap
        importanceData := topFeatures items
        threshold := ar.threshold } := by
  unfold fetchChartsTick
  dsimp only
  rw [hf, ha, hi]

/-! ## Claim C2 -/

/-- C2: after a tick that processes an anomaly response, the displayed
anomaly points and the displayed threshold both come from that same
response, whatever threshold the prior state held, and each produced
point is classified Anomaly exactly when its score is strictly below
the threshold of that response. -/
theorem anomaly_classification_same_response (pd : String → ℚ) (s : DashState)
    (fr : ForecastResp) (ar : AnomalyResp) (ir : ImportanceResp)
    (fd : List ChartPoint) (pts : List AnomalyPoint)
    (hf : mergeForecast fr = some fd) (ha : anomalyPoints pd ar = some pts) :
    (fetchChartsTick pd s (some (fr, ar, ir))).anomalyData = pts ∧
    (fetchChartsTick pd s (some (fr, ar, ir))).threshold = ar.threshold ∧
    ∀ p ∈ pts, (p.status = "Anomaly" ↔ p.score < ar.threshold) := by
  have hmain : (fetchChartsTick pd s (some (fr, ar, ir))).anomalyData = pts ∧
      (fetchChartsTick pd s (some (fr, ar, ir))).threshold = ar.threshold := by
    unfold fetchChartsTick
    dsimp only
    rw [hf, ha]
    cases hi : importanceLookup ir s.selectedTarget with
    | none => exact ⟨rfl, rfl⟩
    | some items => exact ⟨rfl, rfl⟩
  refine ⟨hmain.1, hmain.2, ?_⟩
  intro p hp
  obtain ⟨scs, hscs⟩ : ∃ scs, ar.scores = some scs := by
    cases hsc : ar.scores with
    | none =>
        rw [anomalyPoints, hsc] at ha
        exact absurd ha (by simp)
    | some scs => exact ⟨scs, rfl⟩
  rw [anomalyPoints, hscs] at ha
  simp only [Option.some.injEq] at ha
  rw [← ha] at hp
  rcases List.mem_iff_get?.mp hp with ⟨n, hn⟩
  rw [jsMapIdx_get?] at hn
  rcases Option.map_eq_some'.mp hn with ⟨sc, hsc2, hpe⟩
  subst hpe
  by_cases hlt : sc < ar.threshold
  · simp [anomalyPoint, hlt]
  · simp [anomalyPoint, hlt]

/-- C2 witness: a tick whose prior state holds threshold 5 receives a
response with threshold 2 and scores 1 and 3; the produced points are
classified against 2, the threshold of the same response. -/
theorem anomaly_classification_witness :
    (fetchChartsTick (fun _ => 0)
        { selectedTarget := "m", forecastData := [], anomalyData := [],
          importanceData := [], threshold := 5 }
        (some ({ history_x := some [], history_y := [], history_flags := none,
                 forecast_x := some [], forecast_y := [] },
               { threshold := 2, timestamps := none, raw_values := none,
                 scores := some [1, 3] },
               []))).anomalyData =
      [{ time := 0, score := 1, rawValue := 0, status := "Anomaly", dateStr := none },
       { time := 1, score := 3, rawValue := 0, status := "Normal", dateStr := none }] ∧
    (fetchChartsTick (fun _ => 0)
        { selectedTarget := "m", forecastData := [], anomalyData := [],
          importanceData := [], threshold := 5 }
        (some ({ history_x := some [], history_y := [], history_flags := none,
                 forecast_x := some [], forecast_y := [] },
               { threshold := 2, timestamps := none, raw_values := none,
                 scores := some [1, 3] },
               []))).threshold = 2 ∧
    ∀ p ∈ [({ time := 0, score := 1, rawValue := 0, status := "Anomaly", dateStr := none } : AnomalyPoint),
           { time := 1, score := 3, rawValue := 0, status := "Normal", dateStr := none }],
      (p.status = "Anomaly" ↔ p.score < (2 : ℚ)) := by
  exact anomaly_classification_same_response (fun _ => 0)
    { selectedTarget := "m", forecastData := [], anomalyData := [],
      importanceData := [], threshold := 5 }
    { history_x := some [], history_y := [], history_flags := none,
      forecast_x := some [], forecast_y := [] }
    { threshold := 2, timestamps := none, raw_values := none, scores := some [1, 3] }
    []
    []
    [{ time := 0, score := 1, rawValue := 0, status := "Anomaly", dateStr := none },
     { time := 1, score := 3, rawValue := 0, status := "Normal", dateStr := none }]
    (by rfl) (by decide)

/-! ## Claim C8 -/

/-- C8 counterexample: all three fetches succeed but the anomaly
response lacks its scores array, so the try body throws after
setForecastData has already run; the tick fails, yet the forecast
snapshot has changed while the anomaly snapshot has not, a partial
apply. -/
theorem tick_partial_apply_on_malformed :
    (let s0 : DashState :=
       { selectedTarget := "m", forecastData := [],
         anomalyData := [{ time := 0, score := 1, rawValue := 0, status := "Normal", dateStr := none }],
         importanceData := [], threshold := 0 }
     let fr0 : ForecastResp :=
       { history_x := some ["a"], history_y := [2], history_flags := none,
         forecast_x := some [], forecast_y := [] }
     let ar0 : AnomalyResp :=
       { threshold := 0, timestamps := none, raw_values := none, scores := none }
     let r := fetchChartsTick (fun _ => 0) s0 (some (fr0, ar0, []))
     r.forecastData ≠ s0.forecastData ∧ r.anomalyData = s0.anomalyData) := by
  decide

/-- C8 amended: the three snapshots change only on a tick whose three
fetches all succeed, and a tick that fails during the fetch phase
changes none of them; however, when the fetches succeed but the
anomaly response lacks its scores array, the processing throws midway
and the forecast snapshot is updated while the anomaly, threshold and
importance snapshots are not. -/
theorem tick_fetch_failure_no_partial (pd : String → ℚ) (s : DashState)
    (fr : ForecastResp) (ar : AnomalyResp) (ir : ImportanceResp)
    (fd : List ChartPoint)
    (hf : mergeForecast fr = some fd) (hsc : ar.scores = none) :
    fetchChartsTick pd s none = s ∧
    fetchChartsTick pd s (some (fr, ar, ir)) = { s with forecastData := fd } := by
  refine ⟨rfl, ?_⟩
  unfold fetchChartsTick
  dsimp only
  rw [hf, anomalyPoints, hsc]

/-- C8 witness: a concrete rejected tick leaves the state unchanged,
and a concrete tick with a scores-free anomaly response updates only
the forecast snapshot. -/
theorem tick_fetch_failure_witness :
    fetchChartsTick (fun _ => 0)
      { selectedTarget := "w", forecastData := [], anomalyData := [],
        importanceData := [], threshold := 7 } none =
      { selectedTarget := "w", forecastData := [], anomalyData := [],
        importanceData := [], threshold := 7 } ∧
    fetchChartsTick (fun _ => 0)
      { selectedTarget := "w", forecastData := [], anomalyData := [],
        importanceData := [], threshold := 7 }
      (some ({ history_x := some [], history_y := [], history_flags := none,
               forecast_x := some ["b"], forecast_y := [3] },
             { threshold := 1, timestamps := none, raw_values := none, scores := none },
             [])) =
      { selectedTarget := "w",
        forecastData := [{ time := "", history := none, history_error := none, forecast := some 3 }],
        anomalyData := [], importanceData := [], threshold := 7 } := by
  exact tick_fetch_failure_no_partial (fun _ => 0)
    { selectedTarget := "w", forecastData := [], anomalyData := [],
      importanceData := [], threshold := 7 }
    { history_x := some [], history_y := [], history_flags := none,
      forecast_x := some ["b"], forecast_y := [3] }
    { threshold := 1, timestamps := none, raw_values := none, scores := none }
    []
    [{ time := "", history := none, history_error := none, forecast := some 3 }]
    (by decide) rfl

/-! ## Claim C9 -/

/-- C9 counterexample: tick 2 (newer, forecast value 2) is applied
first, then the slower tick 1 (older, forecast value 1) completes and
is applied; the final displayed forecast is the value of tick 1, so
the earlier-started tick has overwritten the newer one. -/
theorem stale_tick_overwrites_newer :
    (let pd : String → ℚ := fun _ => 0
     let s0 : DashState :=
       { selectedTarget := "m", forecastData := [], anomalyData := [],
         importanceData := [], threshold := 0 }
     let fr1 : ForecastResp :=
       { history_x := some [], history_y := [], history_flags := none,
         forecast_x := some ["a"], forecast_y := [1] }
     let fr2 : ForecastResp :=
       { history_x := some [], history_y := [], history_flags := none,
         forecast_x := some ["a"], forecast_y := [2] }
     let ar : AnomalyResp :=
       { threshold := 0, timestamps := none, raw_values := none, scores := some [] }
     let afterTick2 := fetchChartsTick pd s0 (some (fr2, ar, []))
     let final := fetchChartsTick pd afterTick2 (some (fr1, ar, []))
     final.forecastData ≠ afterTick2.forecastData ∧
     final.forecastData =
       [{ time := "", history := none, history_error := none, forecast := some 1 }]) := by
  decide

/-- C9 amended: the displayed state reflects whichever tick was
applied last, regardless of start order: a fully processed completion
overwrites the whole chart state, so applying tick 1 after tick 2
yields exactly the state tick 1 would have produced alone. -/
theorem last_completed_tick_wins (pd : String → ℚ) (s : DashState)
    (r2 : ForecastResp × AnomalyResp × ImportanceResp)
    (fr1 : ForecastResp) (ar1 : AnomalyResp) (ir1 : ImportanceResp)
    (fd1 : List ChartPoint) (ap1 : List AnomalyPoint) (items1 : List ImportanceItem)
    (hf : mergeForecast fr1 = some fd1) (ha : anomalyPoints pd ar1 = some ap1)
    (hi : importanceLookup ir1 s.selectedTarget = some items1) :
    fetchChartsTick pd (fetchChartsTick pd s (some r2)) (some (fr1, ar1, ir1)) =
      fetchChartsTick pd s (some (fr1, ar1, ir1)) := by
  have hmid : (fetchChartsTick pd s (some r2)).selectedTarget = s.selectedTarget :=
    fetchChartsTick_selectedTarget pd s (some r2)
  rw [fetchChartsTick_success pd _ fr1 ar1 ir1 fd1 ap1 items1 hf ha (by rw [hmid]; exact hi),
      fetchChartsTick_success pd s fr1 ar1 ir1 fd1 ap1 items1 hf ha hi, hmid]

/-- C9 witness: with concrete ticks whose processing fully succeeds,
applying the older tick after the newer one produces exactly the state
the older tick would produce alone. -/
theorem last_completed_tick_wins_witness :
    fetchChartsTick (fun _ => 0)
      (fetchChartsTick (fun _ => 0)
        { selectedTarget := "m", forecastData := [], anomalyData := [],
          importanceData := [], threshold := 0 }
        (some ({ history_x := some [], history_y := [], history_flags := none,
                 forecast_x := some ["a"], forecast_y := [2] },
               { threshold := 0, timestamps := none, raw_values := none, scores := some [] },
               [])))
      (some ({ history_x := some [], history_y := [], history_flags := none,
               forecast_x := some ["a"], forecast_y := [1] },
             { threshold := 0, timestamps := none, raw_values := none, scores := some [] },
             [("m", [{ feature := "f", importance := 1 }])])) =
    fetchChartsTick (fun _ => 0)
      { selectedTarget := "m", forecastData := [], anomalyData := [],
        importanceData := [], threshold := 0 }
      (some ({ history_x := some [], history_y := [], history_flags := none,
               forecast_x := some ["a"], forecast_y := [1] },
             { threshold := 0, timestamps := none, raw_values := none, scores := some [] },
             [("m", [{ feature := "f", importance := 1 }])])) := by
  exact last_completed_tick_wins (fun _ => 0)
    { selectedTarget := "m", forecastData := [], anomalyData := [],
      importanceData := [], threshold := 0 }
    ({ history_x := some [], history_y := [], history_flags := none,
       forecast_x := some ["a"], forecast_y := [2] },
     { threshold := 0, timestamps := none, raw_values := none, scores := some [] },
     [])
    { history_x := some [], history_y := [], history_flags := none,
      forecast_x := some ["a"], forecast_y := [1] }
    { threshold := 0, timestamps := none, raw_values := none, scores := some [] }
    [("m", [{ feature := "f", importance := 1 }])]
    [{ time := "", history := none, history_error := none, forecast := some 1 }]
    []
    [{ feature := "f", importance := 1 }]
    (by decide) (by decide) (by decide)

/-! ## Claim C1 -/

/-- C1: when the value arrays match their timestamp arrays in length,
the merged render sequence has exactly one point per history timestamp
followed by one point per forecast timestamp, in order, with no
deduplication or resorting; history points carry the observed value
and a null forecast channel, with the error overlay equal to the
observed channel exactly when the flag at that index is true; forecast
points carry the forecast value and null observed and error
channels. -/
theorem merge_length_channels (r : ForecastResp) (hx fx : List String)
    (hhx : r.history_x = some hx) (hfx : r.forecast_x = some fx)
    (hylen : r.history_y.length = hx.length)
    (hflen : r.forecast_y.length = fx.length) :
    ∃ pts, mergeForecast r = some pts ∧
      pts.length = hx.length + fx.length ∧
      (∀ i t, hx.get? i = some t →
        ∃ v, r.history_y.get? i = some v ∧
          pts.get? i = some (historyPoint r i t) ∧
          (historyPoint r i t).history = some v ∧
          (historyPoint r i t).forecast = none ∧
          ((historyPoint r i t).history_error = (historyPoint r i t).history ↔
            histFlag r i = true)) ∧
      (∀ j t, fx.get? j = some t →
        ∃ v, r.forecast_y.get? j = some v ∧
          pts.get? (hx.length + j) = some (forecastPoint r j t) ∧
          (forecastPoint r j t).forecast = some v ∧
          (forecastPoint r j t).history = none ∧
          (forecastPoint r j t).history_error = none) := by
  refine ⟨jsMapIdx (historyPoint r) hx ++ jsMapIdx (forecastPoint r) fx,
    ?_, ?_, ?_, ?_⟩
  · rw [mergeForecast, hhx, hfx]
  · rw [List.length_append, jsMapIdx_length, jsMapIdx_length]
  · intro i t ht
    have hi : i < hx.length := by
      rcases List.get?_eq_some.mp ht with ⟨h, _⟩
      exact h
    have hiv : i < r.history_y.length := by omega
    obtain ⟨v, hv⟩ : ∃ v, r.history_y.get? i = some v :=
      ⟨_, List.get?_eq_get hiv⟩
    refine ⟨v, hv, ?_, ?_, rfl, ?_⟩
    · rw [List.get?_append (by rw [jsMapIdx_length]; exact hi),
        jsMapIdx_get?, ht]
      rfl
    · show r.history_y.get? i = some v
      exact hv
    · show (if histFlag r i then r.history_y.get? i else none) =
        r.history_y.get? i ↔ histFlag r i = true
      cases hfl : histFlag r i with
      | true => simp
      | false =>
          rw [hv]
          simp
  · intro j t ht
    have hj : j < fx.length := by
      rcases List.get?_eq_some.mp ht with ⟨h, _⟩
      exact h
    have hjv : j < r.forecast_y.length := by omega
    obtain ⟨v, hv⟩ : ∃ v, r.forecast_y.get? j = some v :=
      ⟨_, List.get?_eq_get hjv⟩
    refine ⟨v, hv, ?_, ?_, rfl, rfl⟩
    · rw [List.get?_append_right (by rw [jsMapIdx_length]; omega)]
      have h2 : hx.length + j - (jsMapIdx (historyPoint r) hx).length = j := by
        rw [jsMapIdx_length]; omega
      rw [h2, jsMapIdx_get?, ht]
      rfl
    · show r.forecast_y.get? j = some v
      exact hv

/-- C1 witness: a concrete response with one flagged history point and
one forecast point; the merged sequence has them in order with the
stated channel pattern. -/
theorem merge_length_channels_witness :
    ∃ pts,
      mergeForecast
        { history_x := some ["2024-01-01T00:00:00"], history_y := [4],
          history_flags := some [true],
          forecast_x := some ["2024-01-01T00:05:00"], forecast_y := [7] } = some pts ∧
      pts.length = ["2024-01-01T00:00:00"].length + ["2024-01-01T00:05:00"].length ∧
      (∀ i t, (["2024-01-01T00:00:00"] : List String).get? i = some t →
        ∃ v, ([4] : List ℚ).get? i = some v ∧
          pts.get? i = some (historyPoint
            { history_x := some ["2024-01-01T00:00:00"], history_y := [4],
              history_flags := some [true],
              forecast_x := some ["2024-01-01T00:05:00"], forecast_y := [7] } i t) ∧
          (historyPoint
            { history_x := some ["2024-01-01T00:00:00"], history_y := [4],
              history_flags := some [true],
              forecast_x := some ["2024-01-01T00:05:00"], forecast_y := [7] } i t).history = some v ∧
          (historyPoint
            { history_x := some ["2024-01-01T00:00:00"], history_y := [4],
              history_flags := some [true],
              forecast_x := some ["2024-01-01T00:05:00"], forecast_y := [7] } i t).forecast = none ∧
          ((historyPoint
            { history_x := some ["2024-01-01T00:00:00"], history_y := [4],
              history_flags := some [true],
              forecast_x := some ["2024-01-01T00:05:00"], forecast_y := [7] } i t).history_error =
            (historyPoint
            { history_x := some ["2024-01-01T00:00:00"], history_y := [4],
              history_flags := some [true],
              forecast_x := some ["2024-01-01T00:05:00"], forecast_y := [7] } i t).history ↔
            histFlag
            { history_x := some ["2024-01-01T00:00:00"], history_y := [4],
              history_flags := some [true],
              forecast_x := some ["2024-01-01T00:05:00"], forecast_y := [7] } i = true)) ∧
      (∀ j t, (["2024-01-01T00:05:00"] : List String).get? j = some t →
        ∃ v, ([7] : List ℚ).get? j = some v ∧
          pts.get? (["2024-01-01T00:00:00"].length + j) = some (forecastPoint
            { history_x := some ["2024-01-01T00:00:00"], history_y := [4],
              history_flags := some [true],
              forecast_x := some ["2024-01-01T00:05:00"], forecast_y := [7] } j t) ∧
          (forecastPoint
            { history_x := some ["2024-01-01T00:00:00"], history_y := [4],
              history_flags := some [true],
              forecast_x := some ["2024-01-01T00:05:00"], forecast_y := [7] } j t).forecast = some v ∧
          (forecastPoint
            { history_x := some ["2024-01-01T00:00:00"], history_y := [4],
              history_flags := some [true],
              forecast_x := some ["2024-01-01T00:05:00"], forecast_y := [7] } j t).history = none ∧
          (forecastPoint
            { history_x := some ["2024-01-01T00:00:00"], history_y := [4],
              history_flags := some [true],
              forecast_x := some ["2024-01-01T00:05:00"], forecast_y := [7] } j t).history_error = none) :=
  merge_length_channels
    { history_x := some ["2024-01-01T00:00:00"], history_y := [4],
      history_flags := some [true],
      forecast_x := some ["2024-01-01T00:05:00"], forecast_y := [7] }
    ["2024-01-01T00:00:00"] ["2024-01-01T00:05:00"] rfl rfl rfl rfl

/-! ## Claim C7 -/

/-- C7 counterexample: an anomaly response whose timestamps array is
empty while it has two scores; the point at index 1 receives time 1,
the index itself, not the claimed defined fallback 0, and the pipeline
does not substitute 0 at that missing position. -/
theorem anomaly_fallback_is_index_not_zero :
    anomalyPoints (fun _ => 0)
        { threshold := 0, timestamps := some [], raw_values := none,
          scores := some [5, 6] } =
      some [{ time := 0, score := 5, rawValue := 0, status := "Normal", dateStr := none },
            { time := 1, score := 6, rawValue := 0, status := "Normal", dateStr := none }] ∧
    ((1 : ℚ) ≠ 0) := by
  exact ⟨by decide, by decide⟩

/-- C7 amended: given a scores array, one anomaly point is produced
per score index without failing; a missing raw-value entry falls back
to 0, but a missing timestamp entry falls back to the point index, and
in the merged forecast series a missing history value entry is carried
as the raw (possibly undefined) lookup rather than 0, with one point
still produced per history and forecast timestamp. -/
theorem malformed_arrays_fallbacks (pd : String → ℚ) (ar : AnomalyResp)
    (scs : List ℚ) (hs : ar.scores = some scs)
    (fr : ForecastResp) (hx fx : List String)
    (hhx : fr.history_x = some hx) (hfx : fr.forecast_x = some fx) :
    (∃ pts, anomalyPoints pd ar = some pts ∧ pts.length = scs.length ∧
      ∀ i sc, scs.get? i = some sc →
        pts.get? i = some (anomalyPoint pd ar i sc) ∧
        (anomalyPoint pd ar i sc).rawValue =
          ((ar.raw_values.getD []).get? i).getD 0 ∧
        ((ar.timestamps.getD []).get? i = none →
          (anomalyPoint pd ar i sc).time = (i : ℚ))) ∧
    (∃ ps, mergeForecast fr = some ps ∧
      ps.length = hx.length + fx.length ∧
      ∀ i t, hx.get? i = some t →
        ps.get? i = some (historyPoint fr i t) ∧
        (historyPoint fr i t).history = fr.history_y.get? i) := by
  constructor
  · refine ⟨jsMapIdx (anomalyPoint pd ar) scs, ?_, jsMapIdx_length _ _, ?_⟩
    · rw [anomalyPoints, hs]
    · intro i sc hsc
      refine ⟨?_, rfl, ?_⟩
      · rw [jsMapIdx_get?, hsc]
        rfl
      · intro hts
        show (match (ar.timestamps.getD []).get? i with
              | some t => if t = "" then (i : ℚ) else pd t
              | none => (i : ℚ)) = (i : ℚ)
        rw [hts]
  · refine ⟨jsMapIdx (historyPoint fr) hx ++ jsMapIdx (forecastPoint fr) fx,
      ?_, ?_, ?_⟩
    · rw [mergeForecast, hhx, hfx]
    · rw [List.length_append, jsMapIdx_length, jsMapIdx_length]
    · intro i t ht
      have hi : i < hx.length := by
        rcases List.get?_eq_some.mp ht with ⟨h, _⟩
        exact h
      refine ⟨?_, rfl⟩
      rw [List.get?_append (by rw [jsMapIdx_length]; exact hi),
        jsMapIdx_get?, ht]
      rfl

/-- C7 witness: a concrete malformed pair of responses, with an absent
timestamps array, an empty raw-values array and a history value array
shorter than its timestamp array; every index still yields a point
with the amended fallbacks. -/
theorem malformed_arrays_fallbacks_witness :
    (∃ pts, anomalyPoints (fun _ => 0)
        { threshold := 1, timestamps := none, raw_values := some [],
          scores := some [7] } = some pts ∧
      pts.length = ([7] : List ℚ).length ∧
      ∀ i sc, ([7] : List ℚ).get? i = some sc →
        pts.get? i = some (anomalyPoint (fun _ => 0)
          { threshold := 1, timestamps := none, raw_values := some [],
            scores := some [7] } i sc) ∧
        (anomalyPoint (fun _ => 0)
          { threshold := 1, timestamps := none, raw_values := some [],
            scores := some [7] } i sc).rawValue =
          ((((none : Option (List ℚ))).getD []).get? i).getD 0 ∧
        ((((some ([] : List String))).getD []).get? i = none →
          (anomalyPoint (fun _ => 0)
            { threshold := 1, timestamps := none, raw_values := some [],
              scores := some [7] } i sc).time = (i : ℚ))) ∧
    (∃ ps, mergeForecast
        { history_x := some ["x"], history_y := [], history_flags := none,
          forecast_x := some [], forecast_y := [] } = some ps ∧
      ps.length = (["x"] : List String).length + ([] : List String).length ∧
      ∀ i t, (["x"] : List String).get? i = some t →
        ps.get? i = some (historyPoint
          { history_x := some ["x"], history_y := [], history_flags := none,
            forecast_x := some [], forecast_y := [] } i t) ∧
        (historyPoint
          { history_x := some ["x"], history_y := [], history_flags := none,
            forecast_x := some [], forecast_y := [] } i t).history =
          ([] : List ℚ).get? i) := by
  exact malformed_arrays_fallbacks (fun _ => 0)
    { threshold := 1, timestamps := none, raw_values := some [],
      scores := some [7] }
    [7] rfl
    { history_x := some ["x"], history_y := [], history_flags := none,
      forecast_x := some [], forecast_y := [] }
    ["x"] [] rfl rfl

end PredMaint
